import Mathlib

/-!
Shallow embedding of the conversational bot in `src/app.py`.

Python strings are modelled as lists of characters (`Str`). The helpers
`pySplit`, `pyReplace`, `pyStrip`, `pyLower`, `pyIn` and `pyTailSlice` model
the Python primitives `str.split`, `str.replace`, `str.strip`, `str.lower`,
the `in` operator and the slice `s[-n:]`; each is written with structural
(fuel-bounded) recursion so that the kernel can evaluate it on concrete
inputs.

External collaborators (the googletrans translator, the ChromaDB vector
store, the Gemini generation API and `random.choice`) are modelled as an
oracle record `World`; the outbound Slack operations available to the
handlers (`chat.postMessage` via `say`, and `chat.update`) are recorded as a
trace of `Call`s so that theorems can count publishes, edits and
retrieval/generation attempts.
-/

set_option maxRecDepth 1000000

namespace PeopleAI

/-! Python string primitives. -/

abbrev Str := List Char

/-- Convert a Lean string literal to the character-list model. -/
def py (s : String) : Str := s.data

/-- Fuel-bounded worker for `pySplit`; `cur` holds the current segment reversed. -/
def pySplitAux (sep : Str) : Nat → Str → Str → List Str
  | 0, cur, l => [cur.reverse ++ l]
  | _fuel + 1, cur, [] => [cur.reverse]
  | fuel + 1, cur, c :: rest =>
    if sep.isPrefixOf (c :: rest) then
      cur.reverse :: pySplitAux sep fuel [] ((c :: rest).drop sep.length)
    else
      pySplitAux sep fuel (c :: cur) rest

/-- Python `s.split(sep)` for a non-empty separator: split on every
non-overlapping occurrence, keeping empty segments. -/
def pySplit (sep s : Str) : List Str :=
  if sep = [] then [s] else pySplitAux sep (s.length + 1) [] s

/-- Whitespace characters stripped by Python `str.strip()` on the inputs that
occur in this program. -/
def isSpaceChar (c : Char) : Bool := c == ' ' || c == '\n' || c == '\t' || c == '\r'

/-- Python `s.strip()`. -/
def pyStrip (l : Str) : Str := ((l.dropWhile isSpaceChar).reverse.dropWhile isSpaceChar).reverse

/-- Python `s.lower()`. -/
def pyLower (l : Str) : Str := l.map Char.toLower

/-- Fuel-bounded worker for `pyReplace`. -/
def pyReplaceAux (old new : Str) : Nat → Str → Str
  | 0, l => l
  | _fuel + 1, [] => []
  | fuel + 1, c :: rest =>
    if old.isPrefixOf (c :: rest) then
      new ++ pyReplaceAux old new fuel ((c :: rest).drop old.length)
    else
      c :: pyReplaceAux old new fuel rest

/-- Python `s.replace(old, new)` for a non-empty `old`: replace every
non-overlapping occurrence, left to right. -/
def pyReplace (old new s : Str) : Str :=
  if old = [] then s else pyReplaceAux old new (s.length + 1) s

/-- Python `sub in s`. -/
def pyIn (sub : Str) : Str → Bool
  | [] => sub.isEmpty
  | c :: rest => sub.isPrefixOf (c :: rest) || pyIn sub rest

/-- Python `s[-n:]` (the whole string when `n = 0`, as `s[-0:]` is `s[0:]`). -/
def pyTailSlice (n : Nat) (l : Str) : Str := if n = 0 then l else l.drop (l.length - n)

/-! Static data of the bot (`setup_personalities`, `setup_responses`,
`setup_ocr_fixes`, `is_question_pattern`), from `src/app.py`. -/

/-- One personality entry: display name and greeting pool. -/
structure Personality where
  name : Str
  greeting : List Str
  deriving DecidableEq

/-- The personality table, in Python dict insertion order (`setup_personalities`). -/
def personalities : List (Str × Personality) :=
  [(py "professional",
    ⟨py "피플AI 프로", [py "안녕하세요! 중고나라 피플AI 프로입니다.", py "정확한 답변으로 도와드릴게요."]⟩),
   (py "friendly",
    ⟨py "피플AI 친구", [py "안녕! 중고나라 동료들의 친구, 피플AI야.", py "편하게 물어보자!"]⟩),
   (py "cheerful",
    ⟨py "피플AI 해피", [py "좋은 하루! 피플AI 해피 모드야.", py "어떤 도움을 줄까?"]⟩)]

/-- Acknowledgment message pool (`responses["searching"]`). -/
def searching_responses : List Str :=
  [py "생각하는 중입니다... 🤔",
   py "잠시만 기다려주세요. 피플AI가 열심히 답을 찾고 있어요! 🏃‍♂️",
   py "데이터를 분석하고 있어요. 곧 답변해 드릴게요! 📊",
   py "가이드북을 샅샅이 뒤지는 중... 📚"]

/-- No-information message pool (`responses["not_found"]`). -/
def not_found_responses : List Str :=
  [py "음, 문의주신 부분은 제가 지금 명확히 답변드리기 어렵네요. ⚠️",
   py "제가 아는 선에서는 해당 정보가 확인되지 않아요. ❌"]

/-- OCR correction map (`setup_ocr_fixes`), in dict insertion order. -/
def ocr_fixes : List (Str × Str) :=
  [(py "연치", py "연차"), (py "복리후셍", py "복리후생"), (py "회으실", py "회의실"),
   (py "택배실", py "택배실"), (py "결제", py "결재"), (py "급여명세서", py "급여명세서")]

/-- Keyword list of `is_question_pattern`. -/
def question_keywords : List Str :=
  [py "어떻게", py "방법", py "알려줘", py "뭐야", py "언제", py "어디서", py "누구",
   py "연차", py "회의실", py "택배", py "복리후생", py "궁금"]

/-- Model of `random.choice` on a non-empty list, indexed by an oracle seed. -/
def randomChoice (l : List Str) (seed : Nat) : Str := l.getD (seed % l.length) []

/-! Bot state and external world. -/

/-- The runtime-mutated fields of the `PeopleAIBot` instance that the handlers
read or write, plus the startup configuration they branch on. -/
structure BotState where
  bot_id : Option Str
  use_gemini : Bool
  session_tracker : List (Str × Str)
  current_personality : Str
  deriving DecidableEq

/-- Look up a personality by key (`bot.personalities[k]`). -/
def lookupPersonality (p : Str) : Personality := (personalities.lookup p).getD ⟨[], []⟩

/-- Result of `collection.query` as the code reads it: `documents` is a list of
document lists (one inner list per query embedding) and `distances` the
corresponding relevance scores, which the code never reads. -/
structure ChromaOut where
  documents : List (List Str)
  distances : List (List ℚ)
  deriving DecidableEq

/-- Oracle for the external collaborators of one event handling: the
translator, the vector store (`none` models a raised exception), the Gemini
call (`none` models a raised exception, `some t` a response whose `.text` is
`t`), and seeds for the `random.choice` draws. -/
structure World where
  translate : Str → Str
  chroma : Option ChromaOut
  gemini : Option Str
  ack_seed : Nat
  greeting_seed : Nat
  notfound_seed : Nat

/-- Outbound operations the handlers can perform, recorded as a trace.
`sayNew` is Bolt `say` (`chat.postMessage`); `editCall` is `chat.update`,
which this program never invokes. -/
inductive Call where
  | embedCall (query : Str)
  | chromaQuery (query : Str)
  | geminiCall (query : Str) (context : Str)
  | sayNew (text : Str)
  | editCall (handle : Nat) (text : Str)
  deriving DecidableEq

/-- Fields of the inbound Slack message that the handlers read; `event_id`
is delivered with every event but never read by any handler. -/
structure Message where
  text : Str
  user : Str
  channel : Str
  channel_type : Option Str
  event_id : Str
  deriving DecidableEq

/-! The helper `_get_session_greeting` and the `PeopleAIBot` methods. -/

/-- Model of `_get_session_greeting`: one-time greeting per
`(user_id, channel_id)` key, drawn from the current personality's pool. -/
def get_session_greeting (st : BotState) (user_id channel_id : Str) (seed : Nat) :
    Str × BotState :=
  let session_key := (user_id, channel_id)
  if session_key ∉ st.session_tracker then
    let personality_greeting :=
      randomChoice (lookupPersonality st.current_personality).greeting seed
    (personality_greeting ++ py "\n",
      { st with session_tracker := session_key :: st.session_tracker })
  else
    ([], st)

/-- Paragraph split of `split_text_into_chunks`: blank-line-separated blocks,
stripped, empty blocks dropped. -/
def paragraphsOf (text : Str) : List Str :=
  ((pySplit (py "\n\n") text).map pyStrip).filter (fun p => p ≠ [])

/-- Sentence split used for over-long paragraphs: split on `"."`, stripped,
empty sentences dropped. -/
def sentencesOf (paragraph : Str) : List Str :=
  ((pySplit (py ".") paragraph).map pyStrip).filter (fun s => s ≠ [])

/-- The over-long-paragraph branch of `split_text_into_chunks`: accumulate
sentences up to `max_length`, and on overflow flush the current chunk and
carry its last `overlap` characters into the next one. -/
def chunkLongParagraph (max_length overlap : Nat) (chunks : List Str) (paragraph : Str) :
    List Str :=
  let r := (sentencesOf paragraph).foldl
    (fun (acc : List Str × Str) sentence =>
      if acc.2.length + sentence.length + 1 ≤ max_length then
        (acc.1, acc.2 ++ sentence ++ py ". ")
      else
        (acc.1 ++ [pyStrip acc.2], pyTailSlice overlap acc.2 ++ sentence ++ py ". "))
    (chunks, [])
  if r.2 ≠ [] then r.1 ++ [pyStrip r.2] else r.1

/-- Model of `PeopleAIBot.split_text_into_chunks`. -/
def split_text_into_chunks (text : Str) (max_length : Nat := 1000) (overlap : Nat := 100) :
    List Str :=
  let chunks := (paragraphsOf text).foldl
    (fun chunks paragraph =>
      if paragraph.length ≤ max_length then chunks ++ [paragraph]
      else chunkLongParagraph max_length overlap chunks paragraph)
    []
  chunks.filter (fun chunk => decide (50 < chunk.length))

/-- Model of `PeopleAIBot.is_question_pattern`. -/
def is_question_pattern (text : Str) : Bool :=
  question_keywords.any (fun keyword => pyIn keyword (pyLower text))

/-- Model of the OCR-fix loop applied to the processed query. -/
def applyOcrFixes (s : Str) : Str :=
  ocr_fixes.foldl (fun t wc => pyReplace wc.1 wc.2 t) s

/-- The context string built from the ChromaDB query result (lines 238-247):
the inner document list of the first query embedding joined with blank lines;
empty on an exception or when no documents come back. The `distances` field
is never consulted. -/
def buildContext : Option ChromaOut → Str
  | none => []
  | some r =>
    match r.documents with
    | [] => []
    | d0 :: _ => List.intercalate (py "\n\n") d0

/-- Result of `search_knowledge`: the data/type pair the Python method
returns, plus the trace of external calls it made. -/
structure SearchOut where
  relevant_data : List Str
  response_type : Str
  calls : List Call
  deriving DecidableEq

/-- Model of `PeopleAIBot.search_knowledge`: translate and OCR-fix the query,
query the vector store, then try Gemini when enabled; fall through to the raw
context, then to `not_found`. -/
def search_knowledge (st : BotState) (w : World) (query : Str) : SearchOut :=
  let processed_query := applyOcrFixes (w.translate query)
  let context := buildContext w.chroma
  let calls := [Call.embedCall processed_query, Call.chromaQuery processed_query] ++
    (if st.use_gemini then [Call.geminiCall processed_query context] else [])
  if st.use_gemini then
    match w.gemini with
    | some t =>
      if t ≠ [] then ⟨[t], py "gemini", calls⟩
      else if context ≠ [] then ⟨[context], py "chroma", calls⟩
      else ⟨[], py "not_found", calls⟩
    | none =>
      if context ≠ [] then ⟨[context], py "chroma", calls⟩
      else ⟨[], py "not_found", calls⟩
  else
    if context ≠ [] then ⟨[context], py "chroma", calls⟩
    else ⟨[], py "not_found", calls⟩

/-- Model of `PeopleAIBot.generate_response`: prepend the one-time session
greeting and format the answer by response type. Returns the response text,
the final response type and the updated bot state. -/
def generate_response (st : BotState) (w : World) (relevant_data : List Str)
    (response_type : Str) (user_id channel_id : Str) : Str × Str × BotState :=
  let g := get_session_greeting st user_id channel_id w.greeting_seed
  let greeting := g.1
  if response_type = py "gemini" then
    (greeting ++ relevant_data.headD [], response_type, g.2)
  else if response_type = py "chroma" then
    (greeting ++ py "✅ 관련 정보를 찾았습니다:\n" ++ relevant_data.headD [] ++
      py "\n더 궁금한 점이 있으시면 말씀해주세요.", response_type, g.2)
  else
    (greeting ++ randomChoice not_found_responses w.notfound_seed ++
      py "\n피플팀 담당자에게 문의해보시는 건 어떨까요? 📞", response_type, g.2)

/-! The Slack event handlers. -/

/-- Trace and post-state of one handler invocation. -/
structure HandleResult where
  calls : List Call
  state : BotState

/-- The mention tag `<@bot_id>`. -/
def mentionTag (b : Str) : Str := py "<@" ++ b ++ py ">"

/-- The addressing condition of `handle_message` (lines 309-311): explicit
mention, direct message, or question-patterned text in an auto-respond
channel. -/
def addressed (st : BotState) (msg : Message) (auto_respond_channels : List Str) : Bool :=
  (match st.bot_id with
   | some b => !b.isEmpty && pyIn (mentionTag b) msg.text
   | none => false)
  || msg.channel_type == some (py "im")
  || (auto_respond_channels.contains msg.channel && is_question_pattern msg.text)

/-- The mention-stripped, trimmed query of `handle_message` (line 313). -/
def clean_query (st : BotState) (msg : Message) : Str :=
  match st.bot_id with
  | some b => if b ≠ [] then pyStrip (pyReplace (mentionTag b) [] msg.text) else pyStrip msg.text
  | none => pyStrip msg.text

/-- Model of the catch-all `handle_message` listener (lines 296-328): skip the
bot's own messages, check addressing, drop too-short queries, then publish the
acknowledgment, run retrieval and generation, and publish the answer as a
second `say`. The outer `except` branch (line 328) is unreachable here because
every modelled callee catches its own exceptions and is total. -/
def handle_message (st : BotState) (w : World) (msg : Message)
    (auto_respond_channels : List Str) : HandleResult :=
  if st.bot_id = some msg.user then ⟨[], st⟩
  else if addressed st msg auto_respond_channels then
    let q := clean_query st msg
    if q = [] ∨ q.length < 2 then ⟨[], st⟩
    else
      let ack := randomChoice searching_responses w.ack_seed
      let sr := search_knowledge st w q
      let gr := generate_response st w sr.relevant_data sr.response_type msg.user msg.channel
      ⟨Call.sayNew ack :: sr.calls ++ [Call.sayNew gr.1], gr.2.2⟩
  else ⟨[], st⟩

/-- The static help document of `handle_help` (lines 336-352), byte for byte. -/
def help_text : Str := py "도움말을 알려드릴게요. ✨\n피플AI는 중고나라 직원들의 회사생활을 돕는 AI입니다.\n회사 정책, 복지, 절차 등을 질문하시면 빠르게 답변드립니다.\n\n📋 사용 예시:\n- `@피플AI 연차 신청 방법`\n- `#people-team-help` 채널에서: `택배 발송 절차는?`\n- DM으로: `How to book a meeting room?`\n\n📝 명령어:\n- `피플AI 모드변경`: 성격 변경 (프로/친구/해피)\n- `피플AI 오늘의팁`: 회사생활 팁\n- `피플AI 맛집추천`: 회사 근처 맛집\n- `피플AI 이벤트`: 사내 이벤트 확인\n\n더 궁금한 점이 있으시면 말씀해주세요.\n"

/-- Model of the `피플AI 도움말` listener `handle_help`: one `say` of the
session greeting followed by the static help text. -/
def handle_help (st : BotState) (w : World) (msg : Message) : HandleResult :=
  let g := get_session_greeting st msg.user msg.channel w.greeting_seed
  ⟨[Call.sayNew (g.1 ++ help_text)], g.2⟩

/-- Model of the `피플AI 모드변경` listener `change_mode`: advance the global
`current_personality` to the next key of the personality table (cyclically)
and announce the new mode. -/
def change_mode (st : BotState) (w : World) (msg : Message) : HandleResult :=
  let g := get_session_greeting st msg.user msg.channel w.greeting_seed
  let ps := personalities.map Prod.fst
  let current_index := ps.indexOf g.2.current_personality
  let next_index := (current_index + 1) % ps.length
  let st2 := { g.2 with current_personality := ps.getD next_index [] }
  let new_mode_name := (lookupPersonality st2.current_personality).name
  ⟨[Call.sayNew (g.1 ++ py "모드 변경이 완료되었습니다. ✅\n현재 모드는 " ++ new_mode_name ++
      py "입니다.\n어떤 도움을 드릴까요?\n")], st2⟩

/-- The fallback text of the outer exception handler of `handle_message`
(line 328). -/
def error_fallback_text : Str := py "문제가 생겼어요. ⚠️\n잠시 후 다시 시도해주세요."

/-! Observables over call traces. -/

/-- Whether a call publishes a new message. -/
def isSayNew : Call → Bool
  | .sayNew _ => true
  | _ => false

/-- Whether a call edits an existing message. -/
def isEditCall : Call → Bool
  | .editCall _ _ => true
  | _ => false

/-- Whether a call is a generation attempt. -/
def isGeminiCall : Call → Bool
  | .geminiCall _ _ => true
  | _ => false

/-- Whether a call is a retrieval operation (embedding or vector-store query). -/
def isRetrievalCall : Call → Bool
  | .embedCall _ => true
  | .chromaQuery _ => true
  | _ => false

/-- The texts published by `say`, in order. -/
def say_texts (calls : List Call) : List Str :=
  calls.filterMap (fun c => match c with | .sayNew t => some t | _ => none)

/-- The classification outcome `Handle`: the event is not from the bot itself,
it is addressed to the bot, and the cleaned query is long enough. -/
def message_handled (st : BotState) (msg : Message) (auto_respond_channels : List Str) :
    Prop :=
  st.bot_id ≠ some msg.user ∧ addressed st msg auto_respond_channels = true ∧
    ¬(clean_query st msg = [] ∨ (clean_query st msg).length < 2)

instance (st : BotState) (msg : Message) (auto_respond_channels : List Str) :
    Decidable (message_handled st msg auto_respond_channels) := by
  unfold message_handled; infer_instance

/-! Shared lemmas about the embedding. -/

theorem search_knowledge_calls (st : BotState) (w : World) (q : Str) :
    (search_knowledge st w q).calls =
      [Call.embedCall (applyOcrFixes (w.translate q)),
       Call.chromaQuery (applyOcrFixes (w.translate q))] ++
      (if st.use_gemini then
        [Call.geminiCall (applyOcrFixes (w.translate q)) (buildContext w.chroma)]
      else []) := by
  unfold search_knowledge
  cases w.gemini <;> cases st.use_gemini <;> (repeat' split) <;> simp <;> (split <;> rfl)

theorem search_knowledge_trace (st : BotState) (w : World) (q : Str) :
    say_texts (search_knowledge st w q).calls = [] ∧
    (search_knowledge st w q).calls.filter isEditCall = [] ∧
    (search_knowledge st w q).calls.countP isGeminiCall = (if st.use_gemini then 1 else 0) := by
  rw [search_knowledge_calls]
  cases st.use_gemini <;>
    simp [say_texts, isEditCall, isGeminiCall, List.countP_cons, List.countP_nil]

theorem get_session_greeting_state (st : BotState) (u c : Str) (seed : Nat) :
    (get_session_greeting st u c seed).2.bot_id = st.bot_id ∧
    (get_session_greeting st u c seed).2.use_gemini = st.use_gemini ∧
    (get_session_greeting st u c seed).2.current_personality = st.current_personality := by
  unfold get_session_greeting
  by_cases h : (u, c) ∈ st.session_tracker <;> simp [h]

theorem generate_response_state (st : BotState) (w : World) (rd : List Str) (rt : Str)
    (u c : Str) :
    (generate_response st w rd rt u c).2.2 = (get_session_greeting st u c w.greeting_seed).2 := by
  unfold generate_response
  split
  · rfl
  split <;> rfl

theorem handle_message_handled_eq (st : BotState) (w : World) (msg : Message)
    (auto_respond_channels : List Str) (h : message_handled st msg auto_respond_channels) :
    handle_message st w msg auto_respond_channels =
      ⟨Call.sayNew (randomChoice searching_responses w.ack_seed) ::
          (search_knowledge st w (clean_query st msg)).calls ++
          [Call.sayNew (generate_response st w
            (search_knowledge st w (clean_query st msg)).relevant_data
            (search_knowledge st w (clean_query st msg)).response_type
            msg.user msg.channel).1],
        (generate_response st w
            (search_knowledge st w (clean_query st msg)).relevant_data
            (search_knowledge st w (clean_query st msg)).response_type
            msg.user msg.channel).2.2⟩ := by
  obtain ⟨h1, h2, h3⟩ := h
  simp only [handle_message]
  rw [if_neg h1, if_pos h2, if_neg h3]

theorem handle_message_bot_id (st : BotState) (w : World) (msg : Message)
    (auto_respond_channels : List Str) :
    (handle_message st w msg auto_respond_channels).state.bot_id = st.bot_id := by
  simp only [handle_message]
  split
  · rfl
  split
  · split
    · rfl
    · show (generate_response st w _ _ msg.user msg.channel).2.2.bot_id = st.bot_id
      rw [generate_response_state]
      exact (get_session_greeting_state st msg.user msg.channel w.greeting_seed).1
  · rfl

theorem message_handled_of_bot_id_eq (st st2 : BotState) (msg : Message)
    (auto_respond_channels : List Str) (hb : st2.bot_id = st.bot_id)
    (h : message_handled st msg auto_respond_channels) :
    message_handled st2 msg auto_respond_channels := by
  obtain ⟨h1, h2, h3⟩ := h
  refine ⟨?_, ?_, ?_⟩
  · rw [hb]; exact h1
  · unfold addressed at h2 ⊢; rw [hb]; exact h2
  · unfold clean_query at h3 ⊢; rw [hb]; exact h3

theorem say_texts_handled (st : BotState) (w : World) (msg : Message)
    (auto_respond_channels : List Str) (h : message_handled st msg auto_respond_channels) :
    say_texts (handle_message st w msg auto_respond_channels).calls =
      [randomChoice searching_responses w.ack_seed,
       (generate_response st w
          (search_knowledge st w (clean_query st msg)).relevant_data
          (search_knowledge st w (clean_query st msg)).response_type
          msg.user msg.channel).1] := by
  rw [handle_message_handled_eq st w msg auto_respond_channels h]
  simp only [say_texts, List.filterMap_cons, List.filterMap_append]
  rw [search_knowledge_calls]
  cases st.use_gemini <;> simp

/-! Concrete inputs used by witnesses and counterexamples. -/

/-- Identity translator: the query is already Korean, so `googletrans` returns
it unchanged. -/
def translateId : Str → Str := fun q => q

/-- A vector-store result with one document whose relevance score is 0. -/
def chromaOneDoc : ChromaOut := ⟨[[py "회사 가이드 문서"]], [[0]]⟩

/-- A vector-store result with no documents: an empty retrieval. -/
def chromaNoDocs : ChromaOut := ⟨[[]], [[]]⟩

/-- World in which retrieval finds one document and generation succeeds. -/
def wGenOk : World := ⟨translateId, some chromaOneDoc, some (py "생성된 답변"), 0, 0, 0⟩

/-- World in which retrieval is empty and generation succeeds. -/
def wEmptyGenOk : World := ⟨translateId, some chromaNoDocs, some (py "생성된 답변"), 0, 0, 0⟩

/-- World in which retrieval finds one document and the generation call raises. -/
def wGenThrows : World := ⟨translateId, some chromaOneDoc, none, 0, 0, 0⟩

/-- World in which retrieval is empty and the generation call raises. -/
def wEmptyGenThrows : World := ⟨translateId, some chromaNoDocs, none, 0, 0, 0⟩

/-- Bot state whose session (U1, C1) has already been greeted. -/
def stGreeted : BotState := ⟨some (py "BOT"), true, [(py "U1", py "C1")], py "friendly"⟩

/-- Bot state with no greeted session yet. -/
def stFresh : BotState := ⟨some (py "BOT"), true, [], py "friendly"⟩

/-- Bot state with Gemini disabled and session (U1, C1) already greeted. -/
def stNoGemini : BotState := ⟨some (py "BOT"), false, [(py "U1", py "C1")], py "friendly"⟩

/-- A channel message from user U1 that mentions the bot. -/
def msgMention : Message := ⟨py "<@BOT> 연차 어떻게 써?", py "U1", py "C1", none, py "Ev1"⟩

/-- A help-command message from user U1. -/
def msgHelp : Message := ⟨py "피플AI 도움말", py "U1", py "C1", none, py "Ev2"⟩

/-! Claim C1. -/

/-- C1 (counterexample): for a concrete handled event the handler performs
zero `chat.update` calls — the acknowledgment message is never edited into the
final answer (the answer arrives as a second, separate `chat.postMessage`), so
no pending → resolved edit-in-place transition occurs. -/
theorem placeholder_edit_cex :
    message_handled stGreeted msgMention [] ∧
    ((handle_message stGreeted wGenOk msgMention []).calls.filter isEditCall).length = 0 ∧
    ((handle_message stGreeted wGenOk msgMention []).calls.filter isSayNew).length = 2 := by
  decide

/-- C1 (amended): every handled ConversationEvent publishes exactly one final
answer message after the acknowledgment — never zero, never more than one —
but as a second new message; the acknowledgment placeholder is never edited. -/
theorem handled_event_single_answer (st : BotState) (w : World) (msg : Message)
    (auto_respond_channels : List Str) (h : message_handled st msg auto_respond_channels) :
    ((handle_message st w msg auto_respond_channels).calls.filter isSayNew).length = 2 ∧
    (handle_message st w msg auto_respond_channels).calls.filter isEditCall = [] ∧
    (handle_message st w msg auto_respond_channels).calls.head? =
      some (Call.sayNew (randomChoice searching_responses w.ack_seed)) := by
  rw [handle_message_handled_eq st w msg auto_respond_channels h]
  refine ⟨?_, ?_, rfl⟩ <;>
  · simp only [List.filter_cons, List.filter_append]
    rw [search_knowledge_calls]
    cases st.use_gemini <;> simp [isSayNew, isEditCall]

/-- C1 witness: the amended statement holds at a concrete handled event. -/
theorem handled_event_single_answer_witness :
    ((handle_message stFresh wGenOk msgMention []).calls.filter isSayNew).length = 2 ∧
    (handle_message stFresh wGenOk msgMention []).calls.filter isEditCall = [] ∧
    (handle_message stFresh wGenOk msgMention []).calls.head? =
      some (Call.sayNew (randomChoice searching_responses wGenOk.ack_seed)) :=
  handled_event_single_answer stFresh wGenOk msgMention [] (by decide)

/-! Claim C5. -/

/-- C5 (counterexample): delivering the same event (identical `event_id`)
twice is processed twice — each delivery publishes its own acknowledgment and
answer, so a second answer is published rather than at most one. -/
theorem redelivery_duplicate_cex :
    (say_texts (handle_message stGreeted wGenOk msgMention []).calls).length = 2 ∧
    (say_texts (handle_message (handle_message stGreeted wGenOk msgMention []).state
        wGenOk msgMention []).calls).length = 2 := by
  decide

/-- C5 (amended): the handler never reads the event identifier and keeps no
deduplication state, so redelivery of the same event is reprocessed in full:
every delivery publishes its own acknowledgment and answer pair. -/
theorem redelivery_reprocessed (st : BotState) (w1 w2 : World) (msg : Message)
    (auto_respond_channels : List Str) (h : message_handled st msg auto_respond_channels) :
    (say_texts (handle_message st w1 msg auto_respond_channels).calls).length = 2 ∧
    (say_texts (handle_message (handle_message st w1 msg auto_respond_channels).state w2 msg
        auto_respond_channels).calls).length = 2 := by
  constructor
  · rw [say_texts_handled st w1 msg auto_respond_channels h]; rfl
  · rw [say_texts_handled _ w2 msg auto_respond_channels
      (message_handled_of_bot_id_eq st _ msg auto_respond_channels
        (handle_message_bot_id st w1 msg auto_respond_channels) h)]
    rfl

/-- C5 witness: the amended statement holds at a concrete redelivered event. -/
theorem redelivery_reprocessed_witness :
    (say_texts (handle_message stFresh wGenOk msgMention []).calls).length = 2 ∧
    (say_texts (handle_message (handle_message stFresh wGenOk msgMention []).state wGenOk
        msgMention []).calls).length = 2 :=
  redelivery_reprocessed stFresh wGenOk wGenOk msgMention [] (by decide)

/-! Claim C4. -/

/-- C4 (counterexample): on first contact the help handler prepends the
one-time session greeting, so the published output is not the static help
text byte-for-byte. -/
theorem help_first_contact_cex :
    say_texts (handle_help stFresh wGenOk msgHelp).calls =
      [py "안녕! 중고나라 동료들의 친구, 피플AI야.\n" ++ help_text] ∧
    py "안녕! 중고나라 동료들의 친구, 피플AI야.\n" ++ help_text ≠ help_text := by
  decide

/-- C4 (amended): the help handler publishes exactly one message — the session
greeting followed by the static help text — and makes zero retrieval and zero
generation calls; the output equals the help text byte-for-byte exactly when
the (user, channel) session has already been greeted. -/
theorem help_output_shape (st : BotState) (w : World) (msg : Message) :
    (handle_help st w msg).calls =
      [Call.sayNew ((get_session_greeting st msg.user msg.channel w.greeting_seed).1 ++
        help_text)] ∧
    (handle_help st w msg).calls.filter (fun c => isRetrievalCall c || isGeminiCall c) = [] ∧
    ((msg.user, msg.channel) ∈ st.session_tracker →
      (handle_help st w msg).calls = [Call.sayNew help_text]) := by
  refine ⟨rfl, ?_, fun hmem => ?_⟩
  · simp [handle_help, isRetrievalCall, isGeminiCall]
  · unfold handle_help get_session_greeting
    simp [hmem]

/-- C4 witness: for an already-greeted session the help output is exactly the
static help text. -/
theorem help_output_shape_witness :
    (handle_help stGreeted wGenOk msgHelp).calls = [Call.sayNew help_text] :=
  (help_output_shape stGreeted wGenOk msgHelp).2.2 (by decide)

/-! Claim C9. -/

/-- C9: the session greeting lookup returns a non-empty greeting on the first
call for a (user, channel) key and records the key; on every call for an
already-recorded key it returns the empty string and leaves the state
unchanged, and no call for any other key un-records the key. -/
theorem session_greeting_once (st : BotState) (u c : Str) (seed : Nat) :
    ((u, c) ∉ st.session_tracker →
      (get_session_greeting st u c seed).1 ≠ [] ∧
      (u, c) ∈ (get_session_greeting st u c seed).2.session_tracker) ∧
    ((u, c) ∈ st.session_tracker →
      (get_session_greeting st u c seed).1 = [] ∧
      (get_session_greeting st u c seed).2 = st) ∧
    (∀ u2 c2 seed2, (u, c) ∈ st.session_tracker →
      (u, c) ∈ ((get_session_greeting st u2 c2 seed2).2).session_tracker) := by
  refine ⟨fun hnot => ?_, fun hmem => ?_, fun u2 c2 seed2 hmem => ?_⟩
  · unfold get_session_greeting
    rw [if_pos hnot]
    refine ⟨fun hE => ?_, List.mem_cons_self _ _⟩
    have hlen := congrArg List.length hE
    rw [show py "\n" = ['\n'] from rfl] at hlen
    simp [List.length_append] at hlen
  · unfold get_session_greeting
    rw [if_neg (by simp [hmem])]
    exact ⟨rfl, rfl⟩
  · unfold get_session_greeting
    by_cases h2 : (u2, c2) ∈ st.session_tracker <;> simp [h2, hmem]

/-- C9 witness: first call for a fresh key yields a non-empty greeting and
records the key; a repeated call yields the empty string and no state change. -/
theorem session_greeting_once_witness :
    ((get_session_greeting stFresh (py "U1") (py "C1") 0).1 ≠ [] ∧
      (py "U1", py "C1") ∈ (get_session_greeting stFresh (py "U1") (py "C1") 0).2.session_tracker) ∧
    ((get_session_greeting stGreeted (py "U1") (py "C1") 0).1 = [] ∧
      (get_session_greeting stGreeted (py "U1") (py "C1") 0).2 = stGreeted) :=
  ⟨(session_greeting_once stFresh (py "U1") (py "C1") 0).1 (by decide),
   (session_greeting_once stGreeted (py "U1") (py "C1") 0).2.1 (by decide)⟩

/-! Claim C2. -/

/-- C2 (counterexample): with an empty RetrievalResult and a successful
generation call, the final published answer is the generated text, which is
not one of the configured no-information messages. -/
theorem empty_retrieval_generated_cex :
    buildContext wEmptyGenOk.chroma = [] ∧
    say_texts (handle_message stGreeted wEmptyGenOk msgMention []).calls =
      [py "생각하는 중입니다... 🤔", py "생성된 답변"] ∧
    py "생성된 답변" ∉ not_found_responses := by
  decide

/-- C2 (amended): the empty-context query is still sent to the generation
engine when it is enabled; only when generation is disabled, raises, or
returns empty text does an empty RetrievalResult produce the `not_found`
answer, built from a configured no-information message plus the greeting and
the contact-guidance suffix. -/
theorem empty_retrieval_not_found_answer (st : BotState) (w : World) (q u c : Str)
    (hctx : buildContext w.chroma = [])
    (hnog : st.use_gemini = false ∨ w.gemini = none ∨ w.gemini = some []) :
    (search_knowledge st w q).relevant_data = [] ∧
    (search_knowledge st w q).response_type = py "not_found" ∧
    (generate_response st w (search_knowledge st w q).relevant_data
        (search_knowledge st w q).response_type u c).1 =
      (get_session_greeting st u c w.greeting_seed).1 ++
        randomChoice not_found_responses w.notfound_seed ++
        py "\n피플팀 담당자에게 문의해보시는 건 어떨까요? 📞" := by
  have hsearch : (search_knowledge st w q).relevant_data = [] ∧
      (search_knowledge st w q).response_type = py "not_found" := by
    unfold search_knowledge
    rcases hnog with hng | hng | hng
    · simp [hng, hctx]
    · cases hg : st.use_gemini <;> simp [hng, hctx, hg]
    · cases hg : st.use_gemini <;> simp [hng, hctx, hg]
  refine ⟨hsearch.1, hsearch.2, ?_⟩
  rw [hsearch.1, hsearch.2]
  unfold generate_response
  rw [if_neg (by decide), if_neg (by decide)]

/-- C2 witness: the amended statement holds with Gemini disabled and an empty
retrieval. -/
theorem empty_retrieval_not_found_answer_witness :
    (search_knowledge stNoGemini wEmptyGenOk (py "연차")).relevant_data = [] ∧
    (search_knowledge stNoGemini wEmptyGenOk (py "연차")).response_type = py "not_found" ∧
    (generate_response stNoGemini wEmptyGenOk
        (search_knowledge stNoGemini wEmptyGenOk (py "연차")).relevant_data
        (search_knowledge stNoGemini wEmptyGenOk (py "연차")).response_type
        (py "U1") (py "C1")).1 =
      (get_session_greeting stNoGemini (py "U1") (py "C1") wEmptyGenOk.greeting_seed).1 ++
        randomChoice not_found_responses wEmptyGenOk.notfound_seed ++
        py "\n피플팀 담당자에게 문의해보시는 건 어떨까요? 📞" :=
  empty_retrieval_not_found_answer stNoGemini wEmptyGenOk (py "연차") (py "U1") (py "C1")
    (by decide) (Or.inl rfl)

/-! Claim C3. -/

/-- C3 (counterexample): when the generation call raises but retrieval found a
document, the published answer is the retrieved context formatted as a found
answer — not a configured generation-failure fallback text. -/
theorem generation_failure_fallback_cex :
    say_texts (handle_message stGreeted wGenThrows msgMention []).calls =
      [py "생각하는 중입니다... 🤔",
       py "✅ 관련 정보를 찾았습니다:\n회사 가이드 문서\n더 궁금한 점이 있으시면 말씀해주세요."] ∧
    py "✅ 관련 정보를 찾았습니다:\n회사 가이드 문서\n더 궁금한 점이 있으시면 말씀해주세요." ≠
      error_fallback_text := by
  decide

/-- C3 (amended): the generation client is consulted exactly once per handled
event (single attempt, no retry); when its call raises, no exception escapes —
the event still resolves with exactly one published answer after the
acknowledgment, degrading to the retrieved context (`chroma`) or, with empty
context, to the no-information answer (`not_found`) rather than a dedicated
generation-failure fallback. -/
theorem generation_failure_contained (st : BotState) (w : World) (msg : Message)
    (auto_respond_channels : List Str) (h : message_handled st msg auto_respond_channels)
    (hug : st.use_gemini = true) (hthrow : w.gemini = none) :
    (handle_message st w msg auto_respond_channels).calls.countP isGeminiCall = 1 ∧
    (say_texts (handle_message st w msg auto_respond_channels).calls).length = 2 ∧
    (search_knowledge st w (clean_query st msg)).response_type =
      (if buildContext w.chroma = [] then py "not_found" else py "chroma") := by
  refine ⟨?_, ?_, ?_⟩
  · rw [handle_message_handled_eq st w msg auto_respond_channels h]
    simp only [List.countP_cons, List.countP_append]
    rw [search_knowledge_calls]
    simp [hug, isGeminiCall, List.countP_cons]
  · rw [say_texts_handled st w msg auto_respond_channels h]; rfl
  · unfold search_knowledge
    rw [hug, hthrow]
    by_cases hc : buildContext w.chroma = [] <;> simp [hc]

/-- C3 witness: the amended statement holds at a concrete handled event whose
generation call raises while retrieval found a document. -/
theorem generation_failure_contained_witness :
    (handle_message stGreeted wGenThrows msgMention []).calls.countP isGeminiCall = 1 ∧
    (say_texts (handle_message stGreeted wGenThrows msgMention []).calls).length = 2 ∧
    (search_knowledge stGreeted wGenThrows (clean_query stGreeted msgMention)).response_type =
      (if buildContext wGenThrows.chroma = [] then py "not_found" else py "chroma") :=
  generation_failure_contained stGreeted wGenThrows msgMention [] (by decide) rfl rfl

/-! Claim C6. -/

/-- C6 (counterexample): a retrieval whose only (hence top) result carries
relevance score 0 — below any positive floor — still yields a non-empty
RetrievalResult: the document text is passed on as context. -/
theorem score_floor_cex :
    chromaOneDoc.distances = [[0]] ∧
    (search_knowledge stNoGemini wGenThrows (py "연차")).relevant_data =
      [py "회사 가이드 문서"] ∧
    (search_knowledge stNoGemini wGenThrows (py "연차")).response_type = py "chroma" := by
  decide

/-- C6 (amended): the context handed onward is the join of all top-N documents
returned by the vector store, unconditionally: the relevance scores are never
consulted — no configured floor exists — so the result is independent of the
distances and empty only when the store returns no documents. -/
theorem retrieval_ignores_scores (docs : List Str) (rest : List (List Str))
    (d1 d2 : List (List ℚ)) :
    buildContext (some ⟨docs :: rest, d1⟩) = List.intercalate (py "\n\n") docs ∧
    buildContext (some ⟨docs :: rest, d1⟩) = buildContext (some ⟨docs :: rest, d2⟩) :=
  ⟨rfl, rfl⟩

/-! Claim C7. -/

theorem chunk_fold_short (max_length overlap : Nat) :
    ∀ (l : List Str) (acc : List Str), (∀ p ∈ l, p.length ≤ max_length) →
      l.foldl (fun chunks paragraph =>
        if paragraph.length ≤ max_length then chunks ++ [paragraph]
        else chunkLongParagraph max_length overlap chunks paragraph) acc = acc ++ l := by
  intro l
  induction l with
  | nil => intro acc _; simp
  | cons p t ih =>
    intro acc hp
    simp only [List.foldl_cons]
    rw [if_pos (hp p (List.mem_cons_self p t)),
      ih (acc ++ [p]) (fun q hq => hp q (List.mem_cons_of_mem p hq))]
    simp

/-- C7: when every blank-line-separated paragraph of the corpus fits within
the maximum chunk length, the splitter returns exactly the paragraphs, minus
those at or below the 50-character noise floor, which are discarded: the chunk
count is the paragraph count k minus the number of discarded short
paragraphs. -/
theorem chunk_count_eq_paragraphs (text : Str) (max_length overlap : Nat)
    (h : ∀ p ∈ paragraphsOf text, p.length ≤ max_length) :
    split_text_into_chunks text max_length overlap =
      (paragraphsOf text).filter (fun p => decide (50 < p.length)) ∧
    (split_text_into_chunks text max_length overlap).length =
      (paragraphsOf text).length -
        ((paragraphsOf text).filter (fun p => decide (p.length ≤ 50))).length := by
  have h1 : split_text_into_chunks text max_length overlap =
      (paragraphsOf text).filter (fun p => decide (50 < p.length)) := by
    unfold split_text_into_chunks
    rw [chunk_fold_short max_length overlap (paragraphsOf text) [] h]
    simp
  have hpart : ∀ l : List Str,
      (l.filter (fun p => decide (50 < p.length))).length +
        (l.filter (fun p => decide (p.length ≤ 50))).length = l.length := by
    intro l
    induction l with
    | nil => rfl
    | cons a t ih =>
      simp only [List.filter_cons]
      by_cases ha : 50 < a.length
      · have hb : ¬a.length ≤ 50 := by omega
        simp [ha, hb]
        omega
      · have hb : a.length ≤ 50 := by omega
        simp [ha, hb]
        omega
  have h2 := hpart (paragraphsOf text)
  refine ⟨h1, ?_⟩
  rw [h1]
  omega

/-- A corpus of three paragraphs: two above the noise floor, one below it. -/
def corpus3 : Str :=
  List.replicate 60 'a' ++ py "\n\n" ++ py "짧은 문단" ++ py "\n\n" ++ List.replicate 60 'b'

/-- C7 witness: on a concrete three-paragraph corpus (one paragraph under the
noise floor) the splitter keeps exactly the two long paragraphs. -/
theorem chunk_count_eq_paragraphs_witness :
    split_text_into_chunks corpus3 1000 100 =
      (paragraphsOf corpus3).filter (fun p => decide (50 < p.length)) ∧
    (split_text_into_chunks corpus3 1000 100).length =
      (paragraphsOf corpus3).length -
        ((paragraphsOf corpus3).filter (fun p => decide (p.length ≤ 50))).length :=
  chunk_count_eq_paragraphs corpus3 1000 100 (by decide)

/-! Claim C8. -/

/-- The C8 failing input: a single 1001-character paragraph with no sentence
delimiter, one character over the default maximum chunk length. -/
def overlong_paragraph : Str := List.replicate 1001 'a'

/-- C8 (code bug): at the failing input the over-long-paragraph path emits a
single chunk of length 1002, exceeding the default maximum chunk length 1000:
the overflow branch rebuilds the running chunk from the overlap tail and the
whole sentence without re-checking the bound, contradicting the code's own
comment that long paragraphs are split into chunks that do not exceed the
maximum length. -/
theorem overlong_chunk_at_failing_input :
    (split_text_into_chunks overlong_paragraph 1000 100).map List.length = [1002] ∧
    ∃ chunk ∈ split_text_into_chunks overlong_paragraph 1000 100, 1000 < chunk.length := by
  decide

/-! Claim C10. -/

/-- The personality keys in table order, matching `list(bot.personalities.keys())`. -/
def personality_keys : List Str := personalities.map Prod.fst

/-- The personality reached by one mode change from `p`. -/
def next_personality (p : Str) : Str :=
  personality_keys.getD ((personality_keys.indexOf p + 1) % personality_keys.length) []

theorem change_mode_personality (st : BotState) (w : World) (msg : Message) :
    (change_mode st w msg).state.current_personality =
      next_personality st.current_personality := by
  simp only [change_mode, next_personality, personality_keys]
  rw [(get_session_greeting_state st msg.user msg.channel w.greeting_seed).2.2]

/-- C10: the active personality is one global field shared by all sessions: a
single mode-change invocation by any user advances it to the next key of the
fixed three-personality cycle, switching the greeting pool used for every
subsequent first-contact greeting of every still-ungreeted (user, channel)
key to a different pool; three invocations (by any users) restore the
original personality. -/
theorem personality_global_cycle (st : BotState) (w1 w2 w3 : World) (m1 m2 m3 : Message)
    (hp : st.current_personality ∈ personality_keys) :
    (∀ u c seed, (u, c) ∉ (change_mode st w1 m1).state.session_tracker →
      (get_session_greeting (change_mode st w1 m1).state u c seed).1 =
        randomChoice (lookupPersonality (next_personality st.current_personality)).greeting
          seed ++ py "\n") ∧
    (lookupPersonality (next_personality st.current_personality)).greeting ≠
      (lookupPersonality st.current_personality).greeting ∧
    (change_mode (change_mode (change_mode st w1 m1).state w2 m2).state w3
        m3).state.current_personality = st.current_personality := by
  have hp3 : st.current_personality = py "professional" ∨
      st.current_personality = py "friendly" ∨ st.current_personality = py "cheerful" := by
    simpa [personality_keys, personalities] using hp
  refine ⟨fun u c seed hfresh => ?_, ?_, ?_⟩
  · simp only [get_session_greeting]
    rw [if_pos hfresh, change_mode_personality]
  · rcases hp3 with hk | hk | hk <;> rw [hk] <;> decide
  · rw [change_mode_personality, change_mode_personality, change_mode_personality]
    rcases hp3 with hk | hk | hk <;> rw [hk] <;> decide

/-- C10 witness: the cycle and the global greeting switch hold at a concrete
state whose personality is `friendly`. -/
theorem personality_global_cycle_witness :
    (get_session_greeting (change_mode stGreeted wGenOk msgMention).state (py "U2") (py "C2")
        0).1 =
      randomChoice (lookupPersonality (next_personality stGreeted.current_personality)).greeting
        0 ++ py "\n" ∧
    (lookupPersonality (next_personality stGreeted.current_personality)).greeting ≠
      (lookupPersonality stGreeted.current_personality).greeting ∧
    (change_mode (change_mode (change_mode stGreeted wGenOk msgMention).state wGenOk
        msgMention).state wGenOk msgMention).state.current_personality =
      stGreeted.current_personality :=
  ⟨(personality_global_cycle stGreeted wGenOk wGenOk wGenOk msgMention msgMention msgMention
      (by decide)).1 (py "U2") (py "C2") 0 (by decide),
   (personality_global_cycle stGreeted wGenOk wGenOk wGenOk msgMention msgMention msgMention
      (by decide)).2.1,
   (personality_global_cycle stGreeted wGenOk wGenOk wGenOk msgMention msgMention msgMention
      (by decide)).2.2⟩

end PeopleAI
